import Mathlib

/-!
Verification of the readeck-python client core: a shallow embedding of
`src/readeck/client.py`, `src/readeck/models.py` and `src/readeck/exceptions.py`,
together with theorems about the response-classification, header-parsing and
frontmatter-parsing behaviour of the library.
-/

namespace Readeck

/-- JSON values, embedding the Python dict/list/str/int/bool/None payloads the
client passes around. -/
inductive Json where
  | null : Json
  | bool (b : Bool) : Json
  | num (n : Int) : Json
  | str (s : String) : Json
  | arr (items : List Json) : Json
  | obj (fields : List (String × Json)) : Json

/-- The exception taxonomy of `exceptions.py`: the base `ReadeckError` and its four
subclasses, each carrying a message, an optional HTTP status code and optional
structured response data. -/
inductive ReadeckExc where
  | error (message : String) (statusCode : Option Nat) (responseData : Option Json)
  | authError (message : String) (statusCode : Option Nat) (responseData : Option Json)
  | notFoundError (message : String) (statusCode : Option Nat) (responseData : Option Json)
  | validationError (message : String) (statusCode : Option Nat) (responseData : Option Json)
  | serverError (message : String) (statusCode : Option Nat) (responseData : Option Json)

/-- Whether an exception is the generic base `ReadeckError` (and not one of the
four specific subclasses). -/
def ReadeckExc.isGenericError : ReadeckExc → Bool
  | .error _ _ _ => true
  | _ => false

/-- Embedding of an `httpx.Response` as the client consumes it: the status code,
the decoded body text, the outcome of `response.json()` (an `Except` whose error
is the decode-exception message), and the response headers. -/
structure Response where
  status : Nat
  text : String
  json : Except String Json
  headers : List (String × String)

/-- `httpx.Response.is_success`: the status code is in the 2xx range. -/
def isSuccess (status : Nat) : Bool := 200 ≤ status && status < 300

/-- `response.headers.get(name)`. -/
def headerGet (headers : List (String × String)) (name : String) : Option String :=
  List.lookup name headers

/-- Embedding of `ReadeckClient._make_request` (client.py), from the point where a
response has been received: the status-classification ladder followed by JSON body
parsing.  Raised exceptions become `Except.error`. -/
def make_request (r : Response) : Except ReadeckExc Json :=
  if r.status = 401 then
    .error (.authError "Authentication failed. Please check your token." (some r.status) none)
  else if r.status = 403 then
    .error (.authError "Access forbidden. Insufficient permissions." (some r.status) none)
  else if r.status = 404 then
    .error (.notFoundError "Resource not found." (some r.status) none)
  else if r.status = 400 ∨ r.status = 422 then
    .error (.validationError ("Validation error: " ++ r.text) (some r.status) r.json.toOption)
  else if 500 ≤ r.status ∧ r.status < 600 then
    .error (.serverError ("Server error: " ++ r.text) (some r.status) none)
  else if ¬ isSuccess r.status then
    .error (.error ("HTTP " ++ toString r.status ++ ": " ++ r.text) (some r.status) none)
  else
    match r.json with
    | .ok j => .ok j
    | .error e => .error (.error ("Failed to parse JSON response: " ++ e) none none)

/-- A concrete 403 response to a generic request (body is not JSON). -/
def respForbidden : Response :=
  ⟨403, "Forbidden", .error "Expecting value: line 1 column 1 (char 0)", []⟩

/-- A second concrete 403 response to a generic request. -/
def respRestricted : Response :=
  ⟨403, "restricted", .error "Expecting value: line 1 column 1 (char 0)", []⟩

/-- A concrete 401 response. -/
def respUnauthorized : Response :=
  ⟨401, "Unauthorized", .error "Expecting value: line 1 column 1 (char 0)", []⟩

/-- A concrete 500 response. -/
def respServerDown : Response :=
  ⟨500, "Internal Server Error", .error "Expecting value: line 1 column 1 (char 0)", []⟩

/-- A concrete 200 response whose body is not valid JSON. -/
def respBadJson : Response :=
  ⟨200, "invalid json", .error "Expecting value: line 1 column 1 (char 0)", []⟩

/-- `models.BookmarkCreateResponse`: required string `message`, required int `status`. -/
structure BookmarkCreateResponse where
  message : String
  status : Int

/-- `models.BookmarkCreateResult`: the parsed response body plus the two optional
values extracted from the `Bookmark-Id` and `Location` response headers. -/
structure BookmarkCreateResult where
  response : BookmarkCreateResponse
  bookmark_id : Option String
  location : Option String

/-- Pydantic validation of `BookmarkCreateResponse`: both fields are required and
typed; anything else is a validation error. -/
def validateBookmarkCreateResponse (j : Json) : Except String BookmarkCreateResponse :=
  match j with
  | .obj fields =>
    match List.lookup "message" fields, List.lookup "status" fields with
    | some (.str m), some (.num s) => .ok ⟨m, s⟩
    | _, _ => .error "validation error for BookmarkCreateResponse"
  | _ => .error "validation error for BookmarkCreateResponse"

/-- Whether an `Except` value is a success. -/
def exceptIsOk {ε α : Type} : Except ε α → Bool
  | .ok _ => true
  | .error _ => false

/-- The tail of `ReadeckClient.create_bookmark` after status classification: parse
the body as JSON, validate it as a `BookmarkCreateResponse`, then read the
`Bookmark-Id` and `Location` headers into the result. -/
def create_bookmark_parse (r : Response) : Except ReadeckExc BookmarkCreateResult :=
  match r.json with
  | .error e => .error (.error ("Failed to parse JSON response: " ++ e) none none)
  | .ok j =>
    match validateBookmarkCreateResponse j with
    | .error e =>
      .error (.error ("Failed to parse bookmark creation response: " ++ e) none none)
    | .ok resp =>
      .ok ⟨resp, headerGet r.headers "Bookmark-Id", headerGet r.headers "Location"⟩

/-- Embedding of `ReadeckClient.create_bookmark` (client.py) from the point where
the POST response has been received: its own status ladder (401 / 403 / 422 /
202-pass / 5xx / other non-success) followed by body parsing and header
extraction. -/
def create_bookmark (r : Response) : Except ReadeckExc BookmarkCreateResult :=
  if r.status = 401 then
    .error (.authError "Authentication failed. Please check your token." (some r.status) none)
  else if r.status = 403 then
    .error (.authError "Access forbidden. Insufficient permissions." (some r.status) none)
  else if r.status = 422 then
    .error (.validationError ("Validation error: " ++ r.text) (some r.status) r.json.toOption)
  else if r.status = 202 then
    create_bookmark_parse r
  else if 500 ≤ r.status ∧ r.status < 600 then
    .error (.serverError ("Server error: " ++ r.text) (some r.status) none)
  else if ¬ isSuccess r.status then
    .error (.error ("HTTP " ++ toString r.status ++ ": " ++ r.text) (some r.status) none)
  else
    create_bookmark_parse r

/-- A concrete 202 create-bookmark response whose body parses as JSON but fails
`BookmarkCreateResponse` validation, while the `Bookmark-Id` header is present. -/
def respCreateBadBody : Response :=
  ⟨202, "{}", .ok (.obj []), [("Bookmark-Id", "bk1"), ("Location", "https://x/bookmarks/bk1")]⟩

/-- A concrete 202 create-bookmark response with a valid body and both headers. -/
def respCreateOk : Response :=
  ⟨202, "\x7b\"message\": \"Link submitted\", \"status\": 202\x7d",
   .ok (.obj [("message", .str "Link submitted"), ("status", .num 202)]),
   [("Bookmark-Id", "abc123"), ("Location", "https://x/bookmarks/abc123")]⟩

/-- The body returned by `export_bookmark`: `response.text` for markdown,
`response.content` for epub (the raw bytes, represented here by the body text). -/
inductive ExportContent where
  | text (s : String)
  | binary (s : String)

/-- The status ladder of `ReadeckClient.export_bookmark` once the GET response has
been received (401 / 403 / 404-with-bookmark-message / 5xx / other non-success),
followed by the format-dependent choice of text or binary content. -/
def export_classify (bookmark_id format : String) (r : Response) :
    Except ReadeckExc ExportContent :=
  if r.status = 401 then
    .error (.authError "Authentication failed. Please check your token." (some r.status) none)
  else if r.status = 403 then
    .error (.authError "Access forbidden. Insufficient permissions." (some r.status) none)
  else if r.status = 404 then
    .error (.notFoundError ("Bookmark \'" ++ bookmark_id ++ "\' not found or article not available.")
      (some r.status) none)
  else if 500 ≤ r.status ∧ r.status < 600 then
    .error (.serverError ("Server error: " ++ r.text) (some r.status) none)
  else if ¬ isSuccess r.status then
    .error (.error ("HTTP " ++ toString r.status ++ ": " ++ r.text) (some r.status) none)
  else if format = "md" then
    .ok (.text r.text)
  else
    .ok (.binary r.text)

/-- Embedding of `ReadeckClient.export_bookmark` (client.py).  The transport is a
parameter taking the endpoint and the Accept header to the response; the second
component of the result counts how many HTTP requests were issued. -/
def export_bookmark (fetch : String → String → Response) (bookmark_id format : String) :
    Except ReadeckExc ExportContent × Nat :=
  if format ∉ (["md", "epub"] : List String) then
    (.error (.validationError ("Invalid format \'" ++ format ++ "\'. Allowed formats: md, epub")
      none none), 0)
  else
    let accept := if format = "md" then "text/markdown" else "application/epub+zip"
    let r := fetch ("bookmarks/" ++ bookmark_id ++ "/article." ++ format) accept
    (export_classify bookmark_id format r, 1)

/-- Python `str.split("\n")`, structurally on the character list. -/
def splitNlChars : List Char → List (List Char)
  | [] => [[]]
  | c :: rest =>
    match splitNlChars rest with
    | [] => [[]]
    | h :: t => if c = '\n' then [] :: h :: t else (c :: h) :: t

/-- Python `str.split("\n")` for strings. -/
def strSplitNl (s : String) : List String := (splitNlChars s.data).map String.mk

/-- Python `"\n".join(lines)`, structurally on the character lists. -/
def joinNlChars : List String → List Char
  | [] => []
  | [s] => s.data
  | s :: rest => s.data ++ '\n' :: joinNlChars rest

/-- Python `"\n".join(lines)` for strings. -/
def strJoinNl (lines : List String) : String := ⟨joinNlChars lines⟩

/-- Python `str.strip()`: drop whitespace from both ends. -/
def stripChars (l : List Char) : List Char :=
  ((l.dropWhile Char.isWhitespace).reverse.dropWhile Char.isWhitespace).reverse

/-- Python `str.strip()` for strings. -/
def strStrip (s : String) : String := ⟨stripChars s.data⟩

/-- Python `str.lstrip("\n")`: drop leading newline characters. -/
def lstripNl (s : String) : String := ⟨s.data.dropWhile (fun c => c = '\n')⟩

/-- Python `str.startswith(p)`. -/
def strStartsWith (s p : String) : Bool := p.data.isPrefixOf s.data

/-- `models.MarkdownExportMetadata`: every field optional, defaulting to absent. -/
structure MarkdownExportMetadata where
  title : Option String
  saved : Option String
  published : Option String
  website : Option String
  source : Option String
  authors : Option (List String)
  labels : Option (List String)
deriving DecidableEq

/-- The `MarkdownExportMetadata` with every field at its default (absent). -/
def default_metadata : MarkdownExportMetadata := ⟨none, none, none, none, none, none, none⟩

/-- The delimiter scan of `_parse_markdown_frontmatter`: the index (counting from
`i`) of the first line whose stripped content is exactly `---`. -/
def findFrontmatterEnd : List String → Nat → Option Nat
  | [], _ => none
  | l :: rest, i => if strStrip l = "---" then some i else findFrontmatterEnd rest (i + 1)

/-- Embedding of `ReadeckClient._parse_markdown_frontmatter` (client.py).  The
composite `yaml.safe_load` + `MarkdownExportMetadata.model_validate` step of the
external PyYAML/pydantic libraries is a parameter `loadValidate`; `none` stands
for the `yaml.YAMLError` / `ValidationError` cases the source catches. -/
def parse_markdown_frontmatter (loadValidate : String → Option MarkdownExportMetadata)
    (content : String) : Option MarkdownExportMetadata × String :=
  if ¬ strStartsWith content "---\n" then (none, content)
  else
    let lines := strSplitNl content
    match findFrontmatterEnd (lines.drop 1) 1 with
    | none => (none, content)
    | some fe =>
      let frontmatterText := strJoinNl ((lines.drop 1).take (fe - 1))
      match loadValidate frontmatterText with
      | none => (none, content)
      | some metadata => (some metadata, lstripNl (strJoinNl (lines.drop (fe + 1))))

/-- A loader standing for PyYAML + pydantic on the one input the witnesses use:
the empty metadata block parses to the all-default metadata. -/
def emptyBlockLoader : String → Option MarkdownExportMetadata :=
  fun s => if s = "" then some default_metadata else none

/-- A loader standing for PyYAML + pydantic when every block fails to parse. -/
def failingLoader : String → Option MarkdownExportMetadata := fun _ => none

/-- A Python-style datetime, kept as its ISO-8601 rendering. -/
structure PyDatetime where
  isoformat : String
deriving DecidableEq

/-- Modelled from the spec: the `Highlight` record (id, href, bookmark
id/href/title/url/site-name, text, required created timestamp, optional updated
timestamp); its implementation is not under src/, only its tests. -/
structure Highlight where
  id : String
  href : String
  bookmark_id : String
  bookmark_href : String
  bookmark_title : String
  bookmark_url : String
  bookmark_site_name : String
  text : String
  created : PyDatetime
  updated : Option PyDatetime

/-- Modelled from the spec: `HighlightListResponse` — the item sequence, the
pagination metadata and the relation-to-URL map. -/
structure HighlightListResponse where
  items : List Highlight
  total_count : Int
  page : Int
  total_pages : Int
  links : List (String × String)

/-- Modelled from the spec: Python `int(s)` on a header value — digits with an
optional sign; anything else fails to parse. -/
def pyToInt (s : String) : Option Int :=
  let digits : List Char → Option Nat := fun l =>
    if l = [] then none
    else l.foldl (fun acc c => match acc with
      | none => none
      | some n => if c.isDigit then some (n * 10 + (c.toNat - 48)) else none) (some 0)
  match s.data with
  | '-' :: rest => (digits rest).map (fun n => -(n : Int))
  | '+' :: rest => (digits rest).map (fun n => (n : Int))
  | l => (digits l).map (fun n => (n : Int))

/-- Modelled from the spec: an integer pagination header with its independent
fallback — absent or unparsable falls back. -/
def parseIntHeader (v : Option String) (fallback : Int) : Int :=
  match v with
  | none => fallback
  | some s => (pyToInt s).getD fallback

/-- Insert into a relation map, overwriting an existing entry for the same name. -/
def assocSet (m : List (String × String)) (k v : String) : List (String × String) :=
  match m with
  | [] => [(k, v)]
  | kv :: rest => if kv.1 = k then (k, v) :: rest else kv :: assocSet rest k v

/-- Python `str.split(",")` on the underlying character list. -/
def splitCommaChars : List Char → List (List Char)
  | [] => [[]]
  | c :: rest =>
    match splitCommaChars rest with
    | [] => [[]]
    | h :: t => if c = ',' then [] :: h :: t else (c :: h) :: t

/-- Modelled from the spec: one `Link`-header entry of the form
`<URL>; rel="name"` parsed to its (relation name, URL) pair; a malformed entry
contributes nothing. -/
def parseLinkEntry (entry : String) : Option (String × String) :=
  match (strStrip entry).data with
  | '<' :: rest =>
    let url := rest.takeWhile (fun c => c ≠ '>')
    let afterUrl := (rest.dropWhile (fun c => c ≠ '>')).drop 1
    let relPart := stripChars (afterUrl.dropWhile (fun c => c = ';' ∨ c = ' '))
    match relPart with
    | 'r' :: 'e' :: 'l' :: '=' :: '\"' :: nameRest =>
      some (String.mk (nameRest.takeWhile (fun c => c ≠ '\"')), String.mk url)
    | _ => none
  | _ => none

/-- One fold step of the relation-map construction: parse the entry and insert
it, overwriting a duplicate relation name. -/
def linkFoldStep (m : List (String × String)) (entry : String) : List (String × String) :=
  match parseLinkEntry entry with
  | none => m
  | some kv => assocSet m kv.1 kv.2

/-- Modelled from the spec: the relation map built from the comma-separated
entries of a `Link` header value. -/
def parseLinkHeader (value : String) : List (String × String) :=
  ((splitCommaChars value.data).map String.mk).foldl linkFoldStep []

/-- Modelled from the spec: the relation map of a response — empty when the
`Link` header is absent. -/
def linkMapOfHeader (v : Option String) : List (String × String) :=
  match v with
  | none => []
  | some s => parseLinkHeader s

/-- Modelled from the spec: assembling a `HighlightListResponse` from the parsed
items and the response headers (`Total-Count`, `Current-Page`, `Total-Pages`,
`Link`), with the spec's independent fallbacks. -/
def build_highlight_list_response (headers : List (String × String))
    (items : List Highlight) : HighlightListResponse :=
  ⟨items,
   parseIntHeader (headerGet headers "Total-Count") (items.length : Int),
   parseIntHeader (headerGet headers "Current-Page") 1,
   parseIntHeader (headerGet headers "Total-Pages") 1,
   linkMapOfHeader (headerGet headers "Link")⟩

/-- A concrete highlight, as in the highlights tests. -/
def highlightEx : Highlight :=
  ⟨"highlight1", "https://api.readeck.com/bookmarks/annotations/highlight1",
   "bookmark1", "https://api.readeck.com/bookmarks/bookmark1", "Test Bookmark",
   "https://example.com/test", "Example", "This is a test highlight",
   ⟨"2025-01-01T12:00:00Z"⟩, some ⟨"2025-01-01T12:00:00Z"⟩⟩

/-- A second concrete highlight. -/
def highlightEx2 : Highlight :=
  ⟨"highlight2", "https://api.readeck.com/bookmarks/annotations/highlight2",
   "bookmark2", "https://api.readeck.com/bookmarks/bookmark2", "Another Bookmark",
   "https://example.com/another", "Example", "Another test highlight",
   ⟨"2025-01-02T12:00:00Z"⟩, none⟩

/-- The concrete pagination headers used by the spec's testable property. -/
def paginationHeadersEx : List (String × String) :=
  [("Total-Count", "2"), ("Current-Page", "1"), ("Total-Pages", "1")]

/-- A value of a `BookmarkListParams` field as produced by `model_dump` in
python mode: strings, ints, bools, lists of strings, and datetimes. -/
inductive PyValue where
  | str (s : String)
  | int (n : Int)
  | bool (b : Bool)
  | strList (l : List String)
  | datetime (d : PyDatetime)

/-- A value in the query-parameter mapping produced by `to_query_params`:
a scalar or a list. -/
inductive QueryValue where
  | str (s : String)
  | int (n : Int)
  | bool (b : Bool)
  | strList (l : List String)
deriving DecidableEq

/-- `models.BookmarkListParams`: the ~20 optional filter/sort/pagination fields,
all defaulting to `None`. -/
structure BookmarkListParams where
  limit : Option Int
  offset : Option Int
  sort : Option (List String)
  search : Option String
  title : Option String
  author : Option String
  site : Option String
  type : Option (List String)
  labels : Option String
  is_loaded : Option Bool
  has_errors : Option Bool
  has_labels : Option Bool
  is_marked : Option Bool
  is_archived : Option Bool
  range_start : Option String
  range_end : Option String
  read_status : Option (List String)
  updated_since : Option PyDatetime
  id : Option String
  collection : Option String

/-- One entry of `model_dump(exclude_none=True)`: present fields keep their
name and value, absent fields are omitted. -/
def dumpOpt (name : String) (v : Option PyValue) : List (String × PyValue) :=
  match v with
  | none => []
  | some x => [(name, x)]

/-- `self.model_dump(exclude_none=True)` for `BookmarkListParams`: the field
name/value pairs in declaration order with unset fields omitted. -/
def model_dump_exclude_none (p : BookmarkListParams) : List (String × PyValue) :=
  dumpOpt "limit" (p.limit.map .int) ++
  dumpOpt "offset" (p.offset.map .int) ++
  dumpOpt "sort" (p.sort.map .strList) ++
  dumpOpt "search" (p.search.map .str) ++
  dumpOpt "title" (p.title.map .str) ++
  dumpOpt "author" (p.author.map .str) ++
  dumpOpt "site" (p.site.map .str) ++
  dumpOpt "type" (p.type.map .strList) ++
  dumpOpt "labels" (p.labels.map .str) ++
  dumpOpt "is_loaded" (p.is_loaded.map .bool) ++
  dumpOpt "has_errors" (p.has_errors.map .bool) ++
  dumpOpt "has_labels" (p.has_labels.map .bool) ++
  dumpOpt "is_marked" (p.is_marked.map .bool) ++
  dumpOpt "is_archived" (p.is_archived.map .bool) ++
  dumpOpt "range_start" (p.range_start.map .str) ++
  dumpOpt "range_end" (p.range_end.map .str) ++
  dumpOpt "read_status" (p.read_status.map .strList) ++
  dumpOpt "updated_since" (p.updated_since.map .datetime) ++
  dumpOpt "id" (p.id.map .str) ++
  dumpOpt "collection" (p.collection.map .str)

/-- The per-value conversion of `to_query_params`: single-item lists collapse to
their element, longer (or empty) lists stay lists, datetimes become their
ISO-8601 string, scalars pass through. -/
def convertQueryValue : PyValue → QueryValue
  | .strList [x] => .str x
  | .strList l => .strList l
  | .datetime d => .str d.isoformat
  | .str s => .str s
  | .int n => .int n
  | .bool b => .bool b

/-- Embedding of `BookmarkListParams.to_query_params` (models.py). -/
def to_query_params (p : BookmarkListParams) : List (String × QueryValue) :=
  (model_dump_exclude_none p).map (fun kv => (kv.1, convertQueryValue kv.2))

/-- A `model_dump` entry after `to_query_params` conversion. -/
def qdump (name : String) (v : Option PyValue) : List (String × QueryValue) :=
  match v with
  | none => []
  | some x => [(name, convertQueryValue x)]

/-- The `BookmarkListParams` with every field unset. -/
def emptyListParams : BookmarkListParams :=
  ⟨none, none, none, none, none, none, none, none, none, none,
   none, none, none, none, none, none, none, none, none, none⟩

/-- Concrete list parameters: a singleton sort list, a two-element type list,
a datetime filter, everything else unset. -/
def listParamsEx : BookmarkListParams :=
  ⟨none, none, some ["created"], none, none, none, none, some ["article", "photo"],
   none, none, none, none, none, none, none, none, none,
   some ⟨"2025-01-01T00:00:00+00:00"⟩, none, none⟩

/-- Looking up a field of a JSON object payload. -/
def jlookup (fields : List (String × Json)) (name : String) : Option Json :=
  List.lookup name fields

/-- Pydantic: a required string field. -/
def vRequiredStr (fields : List (String × Json)) (name : String) : Except String String :=
  match jlookup fields name with
  | some (.str s) => .ok s
  | some _ => .error ("invalid value for required field " ++ name)
  | none => .error ("missing required field " ++ name)

/-- Pydantic: a required boolean field. -/
def vRequiredBool (fields : List (String × Json)) (name : String) : Except String Bool :=
  match jlookup fields name with
  | some (.bool b) => .ok b
  | some _ => .error ("invalid value for required field " ++ name)
  | none => .error ("missing required field " ++ name)

/-- Pydantic: a required datetime field, parsed from its ISO-8601 string. -/
def vRequiredDatetime (fields : List (String × Json)) (name : String) :
    Except String PyDatetime :=
  match jlookup fields name with
  | some (.str s) => .ok ⟨s⟩
  | some _ => .error ("invalid value for required field " ++ name)
  | none => .error ("missing required field " ++ name)

/-- Pydantic: an `Optional[str]` field with a default used only when the field is
absent; an explicit null becomes `None`. -/
def vOptStr (fields : List (String × Json)) (name : String) (dflt : Option String) :
    Except String (Option String) :=
  match jlookup fields name with
  | none => .ok dflt
  | some .null => .ok none
  | some (.str s) => .ok (some s)
  | some _ => .error ("invalid value for field " ++ name)

/-- Pydantic: an `Optional[datetime]` field defaulting to `None` when absent. -/
def vOptDatetime (fields : List (String × Json)) (name : String) :
    Except String (Option PyDatetime) :=
  match jlookup fields name with
  | none => .ok none
  | some .null => .ok none
  | some (.str s) => .ok (some ⟨s⟩)
  | some _ => .error ("invalid value for field " ++ name)

/-- Pydantic: a non-optional `bool` field defaulting to false only when absent;
an explicit null is a validation error. -/
def vBoolDefaultFalse (fields : List (String × Json)) (name : String) :
    Except String Bool :=
  match jlookup fields name with
  | none => .ok false
  | some (.bool b) => .ok b
  | some _ => .error ("invalid value for boolean field " ++ name)

/-- Pydantic: a non-optional `int` field defaulting to 0 only when absent; an
explicit null is a validation error. -/
def vIntDefaultZero (fields : List (String × Json)) (name : String) :
    Except String Int :=
  match jlookup fields name with
  | none => .ok 0
  | some (.num n) => .ok n
  | some _ => .error ("invalid value for integer field " ++ name)

/-- Pydantic: a non-optional `float` field defaulting to 0.0 only when absent; an
explicit null is a validation error.  Numbers are modelled as rationals. -/
def vRatDefaultZero (fields : List (String × Json)) (name : String) :
    Except String Rat :=
  match jlookup fields name with
  | none => .ok 0
  | some (.num n) => .ok (n : Rat)
  | some _ => .error ("invalid value for numeric field " ++ name)

/-- Pydantic: every element of a JSON array as a string. -/
def jsonStrList : List Json → Except String (List String)
  | [] => .ok []
  | .str s :: rest => (jsonStrList rest).map (fun l => s :: l)
  | _ :: _ => .error "non-string list element"

/-- Pydantic: a `List[str]` field defaulting to the empty list when absent. -/
def vStrListDefaultNil (fields : List (String × Json)) (name : String) :
    Except String (List String) :=
  match jlookup fields name with
  | none => .ok []
  | some (.arr l) => jsonStrList l
  | some _ => .error ("invalid value for list field " ++ name)

/-- `models.BookmarkResource`: a source URL with optional height/width. -/
structure BookmarkResource where
  src : String
  height : Option Int
  width : Option Int

/-- Pydantic: an `Optional[int]` field with default `some 0` when absent. -/
def vOptIntDefaultZero (fields : List (String × Json)) (name : String) :
    Except String (Option Int) :=
  match jlookup fields name with
  | none => .ok (some 0)
  | some .null => .ok none
  | some (.num n) => .ok (some n)
  | some _ => .error ("invalid value for field " ++ name)

/-- Pydantic validation of `BookmarkResource`. -/
def BookmarkResource.model_validate (j : Json) : Except String BookmarkResource :=
  match j with
  | .obj fields =>
    (vRequiredStr fields "src").bind fun src =>
    (vOptIntDefaultZero fields "height").bind fun height =>
    (vOptIntDefaultZero fields "width").bind fun width =>
    .ok ⟨src, height, width⟩
  | _ => .error "BookmarkResource payload must be an object"

/-- `models.BookmarkResources`: the six optional nested resources. -/
structure BookmarkResources where
  article : Option BookmarkResource
  icon : Option BookmarkResource
  image : Option BookmarkResource
  log : Option BookmarkResource
  props : Option BookmarkResource
  thumbnail : Option BookmarkResource

/-- Pydantic: an `Optional[BookmarkResource]` field defaulting to `None`. -/
def vOptResource (fields : List (String × Json)) (name : String) :
    Except String (Option BookmarkResource) :=
  match jlookup fields name with
  | none => .ok none
  | some .null => .ok none
  | some j => (BookmarkResource.model_validate j).map some

/-- Pydantic validation of `BookmarkResources`. -/
def BookmarkResources.model_validate (j : Json) : Except String BookmarkResources :=
  match j with
  | .obj fields =>
    (vOptResource fields "article").bind fun article =>
    (vOptResource fields "icon").bind fun icon =>
    (vOptResource fields "image").bind fun image =>
    (vOptResource fields "log").bind fun log =>
    (vOptResource fields "props").bind fun props =>
    (vOptResource fields "thumbnail").bind fun thumbnail =>
    .ok ⟨article, icon, image, log, props, thumbnail⟩
  | _ => .error "BookmarkResources payload must be an object"

/-- Pydantic: the `Optional[BookmarkResources]` field defaulting to `None`. -/
def vOptResources (fields : List (String × Json)) (name : String) :
    Except String (Option BookmarkResources) :=
  match jlookup fields name with
  | none => .ok none
  | some .null => .ok none
  | some j => (BookmarkResources.model_validate j).map some

/-- `models.BookmarkLink`: all five fields required. -/
structure BookmarkLink where
  content_type : String
  domain : String
  is_page : Bool
  title : String
  url : String

/-- Pydantic validation of `BookmarkLink`. -/
def BookmarkLink.model_validate (j : Json) : Except String BookmarkLink :=
  match j with
  | .obj fields =>
    (vRequiredStr fields "content_type").bind fun content_type =>
    (vRequiredStr fields "domain").bind fun domain =>
    (vRequiredBool fields "is_page").bind fun is_page =>
    (vRequiredStr fields "title").bind fun title =>
    (vRequiredStr fields "url").bind fun url =>
    .ok ⟨content_type, domain, is_page, title, url⟩
  | _ => .error "BookmarkLink payload must be an object"

/-- Pydantic: every element of a JSON array as a `BookmarkLink`. -/
def jsonLinkList : List Json → Except String (List BookmarkLink)
  | [] => .ok []
  | j :: rest =>
    (BookmarkLink.model_validate j).bind fun x =>
    (jsonLinkList rest).map (fun l => x :: l)

/-- Pydantic: the `Optional[List[BookmarkLink]]` field defaulting to `None`. -/
def vOptLinkList (fields : List (String × Json)) (name : String) :
    Except String (Option (List BookmarkLink)) :=
  match jlookup fields name with
  | none => .ok none
  | some .null => .ok none
  | some (.arr l) => (jsonLinkList l).map some
  | some _ => .error ("invalid value for field " ++ name)

/-- `models.Bookmark`: the full bookmark record with the source's defaults. -/
structure Bookmark where
  id : String
  href : String
  url : String
  title : String
  description : Option String
  site : Option String
  site_name : Option String
  authors : List String
  type : String
  document_type : Option String
  lang : Option String
  text_direction : Option String
  loaded : Bool
  has_article : Bool
  is_archived : Bool
  is_deleted : Bool
  is_marked : Bool
  word_count : Int
  reading_time : Int
  read_progress : Rat
  state : Int
  labels : List String
  created : PyDatetime
  updated : PyDatetime
  published : Option PyDatetime
  resources : Option BookmarkResources
  links : Option (List BookmarkLink)
  read_anchor : Option String

/-- Pydantic validation of `Bookmark` (models.py): required identity/URL/title/
type/timestamp fields, optional strings with defaults, and non-optional boolean
and numeric fields that default only when absent from the payload. -/
def Bookmark.model_validate (j : Json) : Except String Bookmark :=
  match j with
  | .obj fields =>
    (vRequiredStr fields "id").bind fun id =>
    (vRequiredStr fields "href").bind fun href =>
    (vRequiredStr fields "url").bind fun url =>
    (vRequiredStr fields "title").bind fun title =>
    (vOptStr fields "description" (some "")).bind fun description =>
    (vOptStr fields "site" (some "")).bind fun site =>
    (vOptStr fields "site_name" (some "")).bind fun site_name =>
    (vStrListDefaultNil fields "authors").bind fun authors =>
    (vRequiredStr fields "type").bind fun type =>
    (vOptStr fields "document_type" (some "")).bind fun document_type =>
    (vOptStr fields "lang" (some "")).bind fun lang =>
    (vOptStr fields "text_direction" (some "ltr")).bind fun text_direction =>
    (vBoolDefaultFalse fields "loaded").bind fun loaded =>
    (vBoolDefaultFalse fields "has_article").bind fun has_article =>
    (vBoolDefaultFalse fields "is_archived").bind fun is_archived =>
    (vBoolDefaultFalse fields "is_deleted").bind fun is_deleted =>
    (vBoolDefaultFalse fields "is_marked").bind fun is_marked =>
    (vIntDefaultZero fields "word_count").bind fun word_count =>
    (vIntDefaultZero fields "reading_time").bind fun reading_time =>
    (vRatDefaultZero fields "read_progress").bind fun read_progress =>
    (vIntDefaultZero fields "state").bind fun state =>
    (vStrListDefaultNil fields "labels").bind fun labels =>
    (vRequiredDatetime fields "created").bind fun created =>
    (vRequiredDatetime fields "updated").bind fun updated =>
    (vOptDatetime fields "published").bind fun published =>
    (vOptResources fields "resources").bind fun resources =>
    (vOptLinkList fields "links").bind fun links =>
    (vOptStr fields "read_anchor" none).bind fun read_anchor =>
    .ok ⟨id, href, url, title, description, site, site_name, authors, type,
         document_type, lang, text_direction, loaded, has_article, is_archived,
         is_deleted, is_marked, word_count, reading_time, read_progress, state,
         labels, created, updated, published, resources, links, read_anchor⟩
  | _ => .error "Bookmark payload must be an object"

/-- The minimal wire payload of the claims: exactly the seven required fields. -/
def minimalBookmarkFields (id href url title type created updated : String) :
    List (String × Json) :=
  [("id", .str id), ("href", .str href), ("url", .str url), ("title", .str title),
   ("type", .str type), ("created", .str created), ("updated", .str updated)]

/-- A concrete minimal bookmark payload. -/
def minimalBookmarkEx : List (String × Json) :=
  minimalBookmarkFields "abc123" "https://r/b/abc123" "https://example.com" "Example"
    "article" "2025-01-01T12:00:00Z" "2025-01-02T12:00:00Z"

/-- C1: classification of a received response by `_make_request`, in first-match
precedence order.  The claim's ladder (401 / 404 / 400-422 / 5xx / other
non-success / unparsable success body) is amended with the 403 branch that the
source contains between 401 and 404. -/
theorem make_request_classified (r : Response) :
    (r.status = 401 → make_request r =
      .error (.authError "Authentication failed. Please check your token." (some r.status) none))
  ∧ (r.status = 403 → make_request r =
      .error (.authError "Access forbidden. Insufficient permissions." (some r.status) none))
  ∧ (r.status = 404 → make_request r =
      .error (.notFoundError "Resource not found." (some r.status) none))
  ∧ (r.status = 400 ∨ r.status = 422 → make_request r =
      .error (.validationError ("Validation error: " ++ r.text) (some r.status) r.json.toOption))
  ∧ (500 ≤ r.status → r.status < 600 → make_request r =
      .error (.serverError ("Server error: " ++ r.text) (some r.status) none))
  ∧ (r.status ≠ 400 → r.status ≠ 401 → r.status ≠ 403 → r.status ≠ 404 → r.status ≠ 422 →
      ¬ (500 ≤ r.status ∧ r.status < 600) → isSuccess r.status = false →
      make_request r =
        .error (.error ("HTTP " ++ toString r.status ++ ": " ++ r.text) (some r.status) none))
  ∧ (isSuccess r.status = true → ∀ e, r.json = .error e →
      make_request r = .error (.error ("Failed to parse JSON response: " ++ e) none none)) := by
  refine ⟨?_, ?_, ?_, ?_, ?_, ?_, ?_⟩
  · intro h
    simp [make_request, h]
  · intro h
    simp [make_request, h]
  · intro h
    simp [make_request, h]
  · intro h
    rcases h with h | h <;> simp [make_request, h]
  · intro h1 h2
    unfold make_request
    split_ifs with a b c d e <;> first | rfl | omega
  · intro h400 h401 h403 h404 h422 h5xx hsucc
    unfold make_request
    have hs : ¬ isSuccess r.status := by simp [hsucc]
    split_ifs <;> first | rfl | omega
  · intro hsucc e he
    unfold make_request
    have h2xx : 200 ≤ r.status ∧ r.status < 300 := by
      simpa [isSuccess] using hsucc
    obtain ⟨hlo, hhi⟩ := h2xx
    split_ifs with a b c d f
    · omega
    · omega
    · omega
    · rcases d with d | d <;> omega
    · obtain ⟨f1, f2⟩ := f
      omega
    · rw [he]

/-- C1 witness: the classification theorem applied at concrete 401, 500 and
unparsable-200 responses. -/
theorem make_request_classified_witness :
    make_request respUnauthorized =
      .error (.authError "Authentication failed. Please check your token." (some 401) none)
  ∧ make_request respServerDown =
      .error (.serverError ("Server error: " ++ "Internal Server Error") (some 500) none)
  ∧ make_request respBadJson =
      .error (.error ("Failed to parse JSON response: " ++
        "Expecting value: line 1 column 1 (char 0)") none none) :=
  ⟨(make_request_classified respUnauthorized).1 rfl,
   (make_request_classified respServerDown).2.2.2.2.1 (by decide) (by decide),
   (make_request_classified respBadJson).2.2.2.2.2.2 (by decide) _ rfl⟩

/-- C1 counterexample: a 403 response, which the claim's ladder sends to the
generic default branch, is in fact classified by `_make_request` as `AuthError`
(a non-generic subclass). -/
theorem make_request_403_not_generic :
    make_request respForbidden =
      .error (.authError "Access forbidden. Insufficient permissions." (some 403) none)
  ∧ ReadeckExc.isGenericError
      (.authError "Access forbidden. Insufficient permissions." (some 403) none) = false :=
  ⟨rfl, rfl⟩

/-- C2 (amended): `_make_request` does have an explicit 403 branch; every 403
response raises `AuthError` with the forbidden message and status 403, the same
mapping used by the explicitly-branching operations. -/
theorem make_request_403_is_auth (r : Response) (h : r.status = 403) :
    make_request r =
      .error (.authError "Access forbidden. Insufficient permissions." (some 403) none) := by
  simp [make_request, h]

/-- C2 witness: the 403 mapping at a concrete response. -/
theorem make_request_403_is_auth_witness :
    make_request respRestricted =
      .error (.authError "Access forbidden. Insufficient permissions." (some 403) none) :=
  make_request_403_is_auth respRestricted rfl

/-- C2 counterexample: at a concrete 403 response the generic dispatcher raises
`AuthError`, not the generic `Error` the claim says 403 is folded into. -/
theorem make_request_403_branch_exists :
    make_request respRestricted =
      .error (.authError "Access forbidden. Insufficient permissions." (some 403) none)
  ∧ ReadeckExc.isGenericError
      (.authError "Access forbidden. Insufficient permissions." (some 403) none) = false :=
  ⟨rfl, rfl⟩

/-- C3 (amended): for every create-bookmark response that passes status
classification and whose body both parses as JSON and validates as a
`BookmarkCreateResponse`, the returned result carries the `Bookmark-Id` and
`Location` header values, each `none` when absent.  (Header extraction only
happens after body parsing and model validation succeed.) -/
theorem create_bookmark_headers (r : Response) (j : Json) (resp : BookmarkCreateResponse)
    (hstatus : r.status = 202 ∨ isSuccess r.status = true)
    (hjson : r.json = .ok j)
    (hvalid : validateBookmarkCreateResponse j = .ok resp) :
    create_bookmark r =
      .ok ⟨resp, headerGet r.headers "Bookmark-Id", headerGet r.headers "Location"⟩ := by
  have h2xx : 200 ≤ r.status ∧ r.status < 300 := by
    rcases hstatus with h | h
    · omega
    · simpa [isSuccess] using h
  obtain ⟨hlo, hhi⟩ := h2xx
  have hsucc : isSuccess r.status = true := by
    simp only [isSuccess, Bool.and_eq_true, decide_eq_true_eq]
    omega
  unfold create_bookmark
  split_ifs with a b c d f
  · omega
  · omega
  · omega
  · simp [create_bookmark_parse, hjson, hvalid]
  · obtain ⟨f1, f2⟩ := f
    omega
  · simp [create_bookmark_parse, hjson, hvalid]

/-- C3 witness: a concrete 202 response with a valid body and both headers. -/
theorem create_bookmark_headers_witness :
    create_bookmark respCreateOk =
      .ok ⟨⟨"Link submitted", 202⟩, some "abc123", some "https://x/bookmarks/abc123"⟩ :=
  create_bookmark_headers respCreateOk
    (.obj [("message", .str "Link submitted"), ("status", .num 202)])
    ⟨"Link submitted", 202⟩ (Or.inl rfl) rfl rfl

/-- C3 counterexample: a 202 response that passes status classification and whose
`Bookmark-Id` header is present, but whose body fails model validation: the call
raises an error, so no result carrying the header values is returned, contrary to
the claim that header extraction is independent of body-parsing outcome. -/
theorem create_bookmark_headers_cex :
    exceptIsOk (create_bookmark respCreateBadBody) = false
  ∧ headerGet respCreateBadBody.headers "Bookmark-Id" = some "bk1" :=
  ⟨rfl, rfl⟩

/-- C5: for every format other than "md" and "epub", `export_bookmark` raises a
`ValidationError` whose message names the allowed set, with zero HTTP requests
issued — for any transport whatsoever. -/
theorem export_bookmark_format_guard (fetch : String → String → Response)
    (bookmark_id format : String) (h : format ∉ (["md", "epub"] : List String)) :
    export_bookmark fetch bookmark_id format =
      (.error (.validationError ("Invalid format \'" ++ format ++ "\'. Allowed formats: md, epub")
        none none), 0) := by
  simp [export_bookmark, h]

/-- C5 witness: requesting format "pdf" with a dummy transport. -/
theorem export_bookmark_format_guard_witness :
    export_bookmark (fun _ _ => respBadJson) "b1" "pdf" =
      (.error (.validationError "Invalid format \'pdf\'. Allowed formats: md, epub" none none),
       0) :=
  export_bookmark_format_guard (fun _ _ => respBadJson) "b1" "pdf" (by decide)

/-- C4: the frontmatter parser is total and degrades to (no metadata, input
unchanged) whenever the input does not begin with the `---` delimiter line, or no
later line strips to `---`, or the delimited block fails YAML parsing or schema
validation — for every load-and-validate step. -/
theorem parse_markdown_frontmatter_degrades
    (loadValidate : String → Option MarkdownExportMetadata) (content : String)
    (h : strStartsWith content "---\n" = false
       ∨ findFrontmatterEnd ((strSplitNl content).drop 1) 1 = none
       ∨ ∀ fe, findFrontmatterEnd ((strSplitNl content).drop 1) 1 = some fe →
           loadValidate (strJoinNl (((strSplitNl content).drop 1).take (fe - 1))) = none) :
    parse_markdown_frontmatter loadValidate content = (none, content) := by
  unfold parse_markdown_frontmatter
  split_ifs with hns
  · dsimp only
    rcases h with h | h | h
    · rw [h] at hns
      simp at hns
    · rw [h]
    · cases hfe : findFrontmatterEnd ((strSplitNl content).drop 1) 1 with
      | none => rfl
      | some fe =>
        dsimp only
        rw [h fe hfe]
  · rfl

/-- C4 witness: an input with no leading delimiter, under a loader that always
fails, returns (no metadata, the input unchanged). -/
theorem parse_markdown_frontmatter_degrades_witness :
    parse_markdown_frontmatter failingLoader "hello" = (none, "hello") :=
  parse_markdown_frontmatter_degrades failingLoader "hello" (Or.inl (by decide))

/-- C9: an empty metadata block (the opening delimiter line immediately followed
by the closing delimiter line) yields the all-default metadata and the content
after the closing delimiter with leading blank lines stripped, given that the
external YAML layer maps the empty block to the all-default metadata. -/
theorem parse_markdown_frontmatter_empty_block
    (loadValidate : String → Option MarkdownExportMetadata) (content : String)
    (restLines : List String)
    (hdefault : loadValidate "" = some default_metadata)
    (hstart : strStartsWith content "---\n" = true)
    (hlines : (strSplitNl content).drop 1 = "---" :: restLines) :
    parse_markdown_frontmatter loadValidate content =
      (some default_metadata, lstripNl (strJoinNl restLines)) := by
  have hdrop : (strSplitNl content).drop 2 = restLines := by
    have h' := congrArg (List.drop 1) hlines
    simpa using h'
  have hstrip : strStrip "---" = "---" := by decide
  have hfe : findFrontmatterEnd ((strSplitNl content).drop 1) 1 = some 1 := by
    rw [hlines]
    unfold findFrontmatterEnd
    rw [if_pos hstrip]
  unfold parse_markdown_frontmatter
  rw [if_neg (by simp [hstart])]
  dsimp only
  rw [hfe]
  dsimp only
  rw [show (1 : Nat) - 1 = 0 from rfl, show (1 : Nat) + 1 = 2 from rfl]
  rw [show strJoinNl (((strSplitNl content).drop 1).take 0) = "" from rfl]
  rw [hdefault, hdrop]

/-- C9 witness: the spec's concrete input `"---\n---\n\n# X\n"` yields the
all-default metadata and content `"# X\n"`. -/
theorem parse_markdown_frontmatter_empty_block_witness :
    parse_markdown_frontmatter emptyBlockLoader "---\n---\n\n# X\n" =
      (some default_metadata, "# X\n") := by
  have h := parse_markdown_frontmatter_empty_block emptyBlockLoader "---\n---\n\n# X\n"
    ["", "# X", ""] (by decide) (by decide) (by decide)
  simpa using h

/-- Looking up a relation name right after overwriting it returns the new URL. -/
theorem lookup_assocSet (m : List (String × String)) (k v : String) :
    List.lookup k (assocSet m k v) = some v := by
  induction m with
  | nil => simp [assocSet, List.lookup]
  | cons kv rest ih =>
    rcases kv with ⟨k', v'⟩
    by_cases h : k' = k
    · subst h
      simp [assocSet, List.lookup]
    · have h' : ¬ (k = k') := fun hh => h hh.symm
      have hb : (k == k') = false := by
        simpa using h'
      simp [assocSet, List.lookup, h, hb, ih]

/-- C6: the pagination metadata of a highlights list response is read from the
`Total-Count`, `Current-Page` and `Total-Pages` headers, each independently
falling back (to the item count, 1 and 1) when absent or unparsable, and the
relation map comes from the `Link` header's `<URL>; rel="name"` entries with
duplicates overwritten, empty when the header is absent. -/
theorem highlight_pagination (headers : List (String × String)) (items : List Highlight) :
    (∀ s n, headerGet headers "Total-Count" = some s → pyToInt s = some n →
      (build_highlight_list_response headers items).total_count = n)
  ∧ (headerGet headers "Total-Count" = none →
      (build_highlight_list_response headers items).total_count = items.length)
  ∧ (∀ s, headerGet headers "Total-Count" = some s → pyToInt s = none →
      (build_highlight_list_response headers items).total_count = items.length)
  ∧ (∀ s n, headerGet headers "Current-Page" = some s → pyToInt s = some n →
      (build_highlight_list_response headers items).page = n)
  ∧ (headerGet headers "Current-Page" = none →
      (build_highlight_list_response headers items).page = 1)
  ∧ (∀ s, headerGet headers "Current-Page" = some s → pyToInt s = none →
      (build_highlight_list_response headers items).page = 1)
  ∧ (∀ s n, headerGet headers "Total-Pages" = some s → pyToInt s = some n →
      (build_highlight_list_response headers items).total_pages = n)
  ∧ (headerGet headers "Total-Pages" = none →
      (build_highlight_list_response headers items).total_pages = 1)
  ∧ (∀ s, headerGet headers "Total-Pages" = some s → pyToInt s = none →
      (build_highlight_list_response headers items).total_pages = 1)
  ∧ (headerGet headers "Link" = none →
      (build_highlight_list_response headers items).links = [])
  ∧ (∀ v, headerGet headers "Link" = some v →
      (build_highlight_list_response headers items).links = parseLinkHeader v)
  ∧ (∀ (entries : List String) (e k u : String), parseLinkEntry e = some (k, u) →
      List.lookup k ((entries ++ [e]).foldl linkFoldStep []) = some u) := by
  refine ⟨?_, ?_, ?_, ?_, ?_, ?_, ?_, ?_, ?_, ?_, ?_, ?_⟩
  · intro s n h1 h2
    simp [build_highlight_list_response, parseIntHeader, h1, h2]
  · intro h1
    simp [build_highlight_list_response, parseIntHeader, h1]
  · intro s h1 h2
    simp [build_highlight_list_response, parseIntHeader, h1, h2]
  · intro s n h1 h2
    simp [build_highlight_list_response, parseIntHeader, h1, h2]
  · intro h1
    simp [build_highlight_list_response, parseIntHeader, h1]
  · intro s h1 h2
    simp [build_highlight_list_response, parseIntHeader, h1, h2]
  · intro s n h1 h2
    simp [build_highlight_list_response, parseIntHeader, h1, h2]
  · intro h1
    simp [build_highlight_list_response, parseIntHeader, h1]
  · intro s h1 h2
    simp [build_highlight_list_response, parseIntHeader, h1, h2]
  · intro h1
    simp [build_highlight_list_response, linkMapOfHeader, h1]
  · intro v h1
    simp [build_highlight_list_response, linkMapOfHeader, h1]
  · intro entries e k u h1
    rw [List.foldl_append]
    simp only [List.foldl_cons, List.foldl_nil, linkFoldStep, h1]
    exact lookup_assocSet _ k u

/-- C6 witness: the spec's concrete headers with two items and no `Link` header
give total_count 2, page 1, total_pages 1 and an empty relation map. -/
theorem highlight_pagination_witness :
    (build_highlight_list_response paginationHeadersEx [highlightEx, highlightEx2]).total_count = 2
  ∧ (build_highlight_list_response paginationHeadersEx [highlightEx, highlightEx2]).page = 1
  ∧ (build_highlight_list_response paginationHeadersEx [highlightEx, highlightEx2]).total_pages = 1
  ∧ (build_highlight_list_response paginationHeadersEx [highlightEx, highlightEx2]).links = [] := by
  have h := highlight_pagination paginationHeadersEx [highlightEx, highlightEx2]
  exact ⟨h.1 "2" 2 rfl (by decide),
         h.2.2.2.1 "1" 1 rfl (by decide),
         h.2.2.2.2.2.2.1 "1" 1 rfl (by decide),
         h.2.2.2.2.2.2.2.2.2.1 rfl⟩

/-- Converting one dumped field commutes with the per-entry conversion map. -/
theorem map_dumpOpt (name : String) (v : Option PyValue) :
    (dumpOpt name v).map (fun kv => (kv.1, convertQueryValue kv.2)) = qdump name v := by
  cases v <;> rfl

/-- `to_query_params` decomposed into one converted segment per field. -/
theorem to_query_params_decomposed (p : BookmarkListParams) :
    to_query_params p =
    qdump "limit" (p.limit.map .int) ++
    qdump "offset" (p.offset.map .int) ++
    qdump "sort" (p.sort.map .strList) ++
    qdump "search" (p.search.map .str) ++
    qdump "title" (p.title.map .str) ++
    qdump "author" (p.author.map .str) ++
    qdump "site" (p.site.map .str) ++
    qdump "type" (p.type.map .strList) ++
    qdump "labels" (p.labels.map .str) ++
    qdump "is_loaded" (p.is_loaded.map .bool) ++
    qdump "has_errors" (p.has_errors.map .bool) ++
    qdump "has_labels" (p.has_labels.map .bool) ++
    qdump "is_marked" (p.is_marked.map .bool) ++
    qdump "is_archived" (p.is_archived.map .bool) ++
    qdump "range_start" (p.range_start.map .str) ++
    qdump "range_end" (p.range_end.map .str) ++
    qdump "read_status" (p.read_status.map .strList) ++
    qdump "updated_since" (p.updated_since.map .datetime) ++
    qdump "id" (p.id.map .str) ++
    qdump "collection" (p.collection.map .str) := by
  simp [to_query_params, model_dump_exclude_none, List.map_append, map_dumpOpt]

/-- Lookup in an appended parameter list: the left segment wins. -/
theorem lookup_append {α : Type} (k : String) (l₁ l₂ : List (String × α)) :
    List.lookup k (l₁ ++ l₂) =
      match List.lookup k l₁ with
      | some v => some v
      | none => List.lookup k l₂ := by
  induction l₁ with
  | nil => simp
  | cons kv rest ih =>
    cases hb : (k == kv.1) <;> simp [List.lookup, hb, ih]

/-- Lookup in one converted field segment. -/
theorem lookup_qdump (k name : String) (v : Option PyValue) :
    List.lookup k (qdump name v) =
      if k = name then v.map convertQueryValue else none := by
  cases v with
  | none => simp [qdump]
  | some x =>
    by_cases h : k = name
    · simp [qdump, List.lookup, h]
    · have hb : (k == name) = false := by simpa using h
      simp [qdump, List.lookup, h, hb]

/-- C7: `to_query_params` collapses singleton list-typed fields to a scalar,
keeps two-or-more-element lists as lists, serializes the datetime field to its
ISO-8601 string, and omits every unset optional field from the mapping. -/
theorem to_query_params_spec (p : BookmarkListParams) :
    (∀ x, p.sort = some [x] → List.lookup "sort" (to_query_params p) = some (.str x))
  ∧ (∀ l, p.sort = some l → 2 ≤ l.length →
      List.lookup "sort" (to_query_params p) = some (.strList l))
  ∧ (∀ x, p.type = some [x] → List.lookup "type" (to_query_params p) = some (.str x))
  ∧ (∀ l, p.type = some l → 2 ≤ l.length →
      List.lookup "type" (to_query_params p) = some (.strList l))
  ∧ (∀ x, p.read_status = some [x] →
      List.lookup "read_status" (to_query_params p) = some (.str x))
  ∧ (∀ l, p.read_status = some l → 2 ≤ l.length →
      List.lookup "read_status" (to_query_params p) = some (.strList l))
  ∧ (∀ d, p.updated_since = some d →
      List.lookup "updated_since" (to_query_params p) = some (.str d.isoformat))
  ∧ (p.limit = none → List.lookup "limit" (to_query_params p) = none)
  ∧ (p.offset = none → List.lookup "offset" (to_query_params p) = none)
  ∧ (p.sort = none → List.lookup "sort" (to_query_params p) = none)
  ∧ (p.search = none → List.lookup "search" (to_query_params p) = none)
  ∧ (p.title = none → List.lookup "title" (to_query_params p) = none)
  ∧ (p.author = none → List.lookup "author" (to_query_params p) = none)
  ∧ (p.site = none → List.lookup "site" (to_query_params p) = none)
  ∧ (p.type = none → List.lookup "type" (to_query_params p) = none)
  ∧ (p.labels = none → List.lookup "labels" (to_query_params p) = none)
  ∧ (p.is_loaded = none → List.lookup "is_loaded" (to_query_params p) = none)
  ∧ (p.has_errors = none → List.lookup "has_errors" (to_query_params p) = none)
  ∧ (p.has_labels = none → List.lookup "has_labels" (to_query_params p) = none)
  ∧ (p.is_marked = none → List.lookup "is_marked" (to_query_params p) = none)
  ∧ (p.is_archived = none → List.lookup "is_archived" (to_query_params p) = none)
  ∧ (p.range_start = none → List.lookup "range_start" (to_query_params p) = none)
  ∧ (p.range_end = none → List.lookup "range_end" (to_query_params p) = none)
  ∧ (p.read_status = none → List.lookup "read_status" (to_query_params p) = none)
  ∧ (p.updated_since = none → List.lookup "updated_since" (to_query_params p) = none)
  ∧ (p.id = none → List.lookup "id" (to_query_params p) = none)
  ∧ (p.collection = none → List.lookup "collection" (to_query_params p) = none) := by
  refine ⟨?_, ?_, ?_, ?_, ?_, ?_, ?_, ?_, ?_, ?_, ?_, ?_, ?_, ?_, ?_, ?_, ?_, ?_, ?_,
    ?_, ?_, ?_, ?_, ?_, ?_, ?_, ?_⟩
  · intro x h
    simp [to_query_params_decomposed, lookup_append, lookup_qdump, h, convertQueryValue]
  · intro l h hlen
    match l, hlen with
    | a :: b :: t, _ =>
      simp [to_query_params_decomposed, lookup_append, lookup_qdump, h, convertQueryValue]
  · intro x h
    simp [to_query_params_decomposed, lookup_append, lookup_qdump, h, convertQueryValue]
  · intro l h hlen
    match l, hlen with
    | a :: b :: t, _ =>
      simp [to_query_params_decomposed, lookup_append, lookup_qdump, h, convertQueryValue]
  · intro x h
    simp [to_query_params_decomposed, lookup_append, lookup_qdump, h, convertQueryValue]
  · intro l h hlen
    match l, hlen with
    | a :: b :: t, _ =>
      simp [to_query_params_decomposed, lookup_append, lookup_qdump, h, convertQueryValue]
  · intro d h
    simp [to_query_params_decomposed, lookup_append, lookup_qdump, h, convertQueryValue]
  all_goals
    intro h
    simp [to_query_params_decomposed, lookup_append, lookup_qdump, h]

/-- C7 witness: concrete parameters where the singleton sort list collapses to a
scalar, the two-element type list stays a list, the datetime serializes, and the
unset limit field is absent. -/
theorem to_query_params_spec_witness :
    List.lookup "sort" (to_query_params listParamsEx) = some (.str "created")
  ∧ List.lookup "type" (to_query_params listParamsEx) = some (.strList ["article", "photo"])
  ∧ List.lookup "updated_since" (to_query_params listParamsEx) =
      some (.str "2025-01-01T00:00:00+00:00")
  ∧ List.lookup "limit" (to_query_params listParamsEx) = none := by
  have h := to_query_params_spec listParamsEx
  exact ⟨h.1 "created" rfl,
         h.2.2.2.1 ["article", "photo"] rfl (by decide),
         h.2.2.2.2.2.2.1 ⟨"2025-01-01T00:00:00+00:00"⟩ rfl,
         h.2.2.2.2.2.2.2.1 rfl⟩

/-- C8: a payload with exactly the seven required fields validates successfully,
with description/site/site_name defaulting to "", authors and labels to [], the
five boolean flags to false, the numeric metrics to 0, text_direction to "ltr",
and resources (and the other optional trailing fields) to None. -/
theorem bookmark_minimal_defaults (id href url title type created updated : String) :
    Bookmark.model_validate
        (.obj (minimalBookmarkFields id href url title type created updated)) =
      .ok ⟨id, href, url, title, some "", some "", some "", [], type, some "", some "",
           some "ltr", false, false, false, false, false, 0, 0, 0, 0, [],
           ⟨created⟩, ⟨updated⟩, none, none, none, none⟩ := rfl

/-- Success of an `Except.bind` decomposes into success of both steps. -/
theorem except_bind_ok {ε α β : Type} (x : Except ε α) (f : α → Except ε β) (b : β) :
    x.bind f = .ok b ↔ ∃ a, x = .ok a ∧ f a = .ok b := by
  cases x <;> simp [Except.bind]

/-- C10: defaults apply only to absent fields — a payload supplying JSON null for
any of the five non-optional boolean flags or the four non-optional numeric
metrics fails Bookmark validation instead of substituting false/0. -/
theorem bookmark_null_rejected (fields : List (String × Json)) (f : String)
    (hf : f ∈ ["loaded", "has_article", "is_archived", "is_deleted", "is_marked",
               "word_count", "reading_time", "read_progress", "state"])
    (hnull : jlookup fields f = some .null) :
    exceptIsOk (Bookmark.model_validate (.obj fields)) = false := by
  cases hv : Bookmark.model_validate (.obj fields) with
  | error e => rfl
  | ok b =>
    exfalso
    simp only [Bookmark.model_validate] at hv
    simp only [except_bind_ok] at hv
    obtain ⟨v1, h1, v2, h2, v3, h3, v4, h4, v5, h5, v6, h6, v7, h7, v8, h8, v9, h9,
      v10, h10, v11, h11, v12, h12, v13, h13, v14, h14, v15, h15, v16, h16, v17, h17,
      v18, h18, v19, h19, v20, h20, v21, h21, v22, h22, v23, h23, v24, h24, v25, h25,
      v26, h26, v27, h27, v28, h28, hfin⟩ := hv
    fin_cases hf
    · simp [vBoolDefaultFalse, hnull] at h13
    · simp [vBoolDefaultFalse, hnull] at h14
    · simp [vBoolDefaultFalse, hnull] at h15
    · simp [vBoolDefaultFalse, hnull] at h16
    · simp [vBoolDefaultFalse, hnull] at h17
    · simp [vIntDefaultZero, hnull] at h18
    · simp [vIntDefaultZero, hnull] at h19
    · simp [vRatDefaultZero, hnull] at h20
    · simp [vIntDefaultZero, hnull] at h21

/-- C10 witness: the concrete minimal payload with an explicit null `loaded`
fails validation. -/
theorem bookmark_null_rejected_witness :
    exceptIsOk (Bookmark.model_validate
      (.obj (minimalBookmarkEx ++ [("loaded", Json.null)]))) = false := by
  exact bookmark_null_rejected (minimalBookmarkEx ++ [("loaded", Json.null)]) "loaded"
    (by decide) (by rfl)

end Readeck
